import Mathlib

/-!
Verification of the signal-scoring engine in
src/python_backend/analyze_pair.py.

Machine floats are modelled as rationals.  The outputs of the external
ta indicator library (RSI, Stochastic, EMA, Keltner) and of the zone
detector are inputs of the engine here, gathered in IndicatorData in the
exact shape run_strategy reads them; everything from the guard stage of
run_strategy down to the returned record is translated statement by
statement from the source.  The forecaster (forecast_prices) is repo
code and is embedded in full, together with the pandas quantile, min and
max operations it feeds.
-/

namespace AnalyzePair

/-- One OHLCV candle, a row of the pandas dataframe (columns Open, High,
Low, Close, Volume). -/
structure Candle where
  Open : ℚ
  High : ℚ
  Low : ℚ
  Close : ℚ
  Volume : ℚ
deriving DecidableEq

/-- Constant CANDLE_LIMIT of analyze_pair.py line 25. -/
def CANDLE_LIMIT : ℕ := 50

/-- Source lines 150 to 153: fetch_current_price is a placeholder that
always returns None. -/
def fetch_current_price : Option ℚ := none

/-- Pandas iloc with a negative index: element at position length - k of
the series (0 when out of range, which the guarded code never hits). -/
def ilocNeg (xs : List ℚ) (k : ℕ) : ℚ := (xs[xs.length - k]?).getD 0

/-- The Close column of the dataframe. -/
def closes (df : List Candle) : List ℚ := df.map Candle.Close

/-- Source line 370: current_price = fetch_current_price(df.name) or
df Close iloc[-1]; fetch_current_price always returns None, so this is
the last close. -/
def current_price (df : List Candle) : ℚ :=
  fetch_current_price.getD (ilocNeg (closes df) 1)

/-- Source line 391: 20-period momentum in percent,
(current_price - Close iloc[-20]) / Close iloc[-20] * 100. -/
def price_momentum (df : List Candle) : ℚ :=
  (current_price df - ilocNeg (closes df) 20) / ilocNeg (closes df) 20 * 100

/-- The scalar indicator values run_strategy reads, in the shape the ta
library and the zone detector hand them over (source lines 358 to 369
and, for the four breakout fields, lines 513 to 516). -/
structure IndicatorData where
  rsi_last : ℚ
  rsi_prev : ℚ
  stoch_k_last : ℚ
  stoch_k_prev : ℚ
  stoch_d_last : ℚ
  ema100 : ℚ
  ema200 : ℚ
  upper_kc : ℚ
  basis_kc : ℚ
  lower_kc : ℚ
  support_low : ℚ
  support_high : ℚ
  resistance_low : ℚ
  resistance_high : ℚ
  rsi_bull : ℚ
  stoch_bull : ℚ
  rsi_bear : ℚ
  stoch_bear : ℚ
deriving DecidableEq

/-- Source line 375. -/
def rsi_crossover (i : IndicatorData) : Bool :=
  decide (50 < i.rsi_last) && decide (i.rsi_prev ≤ 50)

/-- Source line 376. -/
def rsi_crossunder (i : IndicatorData) : Bool :=
  decide (i.rsi_last < 50) && decide (50 ≤ i.rsi_prev)

/-- Source line 377. -/
def stoch_crossover (i : IndicatorData) : Bool :=
  decide (20 < i.stoch_k_last) && decide (i.stoch_k_prev ≤ 20)

/-- Source line 378. -/
def stoch_crossunder (i : IndicatorData) : Bool :=
  decide (i.stoch_k_last < 80) && decide (80 ≤ i.stoch_k_prev)

/-- Source line 381. -/
def bullish_rsi (i : IndicatorData) : Bool :=
  rsi_crossover i || decide (52 < i.rsi_last)

/-- Source line 382. -/
def bearish_rsi (i : IndicatorData) : Bool :=
  rsi_crossunder i || decide (i.rsi_last < 48)

/-- Source line 383. -/
def bullish_stoch (i : IndicatorData) : Bool :=
  decide (20 < i.stoch_k_last) && (stoch_crossover i || decide (45 < i.stoch_k_last))

/-- Source line 384. -/
def bearish_stoch (i : IndicatorData) : Bool :=
  decide (i.stoch_k_last < 80) && (stoch_crossunder i || decide (i.stoch_k_last < 55))

/-- Source line 385: current_price above the Keltner basis by 0.1 percent. -/
def bullish_price (cp : ℚ) (i : IndicatorData) : Bool :=
  decide (i.basis_kc * (1001/1000) < cp)

/-- Source line 386. -/
def bearish_price (cp : ℚ) (i : IndicatorData) : Bool :=
  decide (cp < i.basis_kc * (999/1000))

/-- Source line 387. -/
def bullish_ema (i : IndicatorData) : Bool :=
  decide (i.ema200 * (1001/1000) < i.ema100)

/-- Source line 388. -/
def bearish_ema (i : IndicatorData) : Bool :=
  decide (i.ema100 < i.ema200 * (999/1000))

/-- Source line 392: pm is the 20-period momentum value. -/
def bullish_momentum (pm : ℚ) : Bool := decide (1 < pm)

/-- Source line 393. -/
def bearish_momentum (pm : ℚ) : Bool := decide (pm < -1)

/-- Source line 396. -/
def not_overbought (i : IndicatorData) : Bool :=
  decide (i.rsi_last < 70) && decide (i.stoch_k_last < 80)

/-- Source line 397. -/
def not_oversold (i : IndicatorData) : Bool :=
  decide (30 < i.rsi_last) && decide (20 < i.stoch_k_last)

/-- Source line 400: sum of the five bullish flags. -/
def bullish_points (cp pm : ℚ) (i : IndicatorData) : ℕ :=
  (bullish_rsi i).toNat + (bullish_stoch i).toNat + (bullish_price cp i).toNat +
    (bullish_ema i).toNat + (bullish_momentum pm).toNat

/-- Source line 401: sum of the five bearish flags. -/
def bearish_points (cp pm : ℚ) (i : IndicatorData) : ℕ :=
  (bearish_rsi i).toNat + (bearish_stoch i).toNat + (bearish_price cp i).toNat +
    (bearish_ema i).toNat + (bearish_momentum pm).toNat

/-- The mutable decision state of run_strategy: signal_type, confidence
and the optional sl and tp values (None until a directional branch sets
them, source lines 405 to 406). -/
structure Decision where
  signal : String
  confidence : ℚ
  sl : Option ℚ
  tp : Option ℚ
deriving DecidableEq

/-- Source lines 399 to 427: score calculation and signal generation,
the if elif ladder evaluated top to bottom with first match winning. -/
def decision_stage (cp pm : ℚ) (i : IndicatorData) : Decision :=
  let confidence : ℚ := (max (bullish_points cp pm i) (bearish_points cp pm i) : ℚ) / 5 * 100
  if bullish_price cp i && bullish_ema i && bullish_momentum pm then
    { signal := "BUY", confidence := max 70 confidence,
      sl := some (min i.support_low (cp * (985/1000))),
      tp := some (max i.resistance_high (cp * (1015/1000))) }
  else if bearish_price cp i && bearish_ema i && bearish_momentum pm then
    { signal := "SELL", confidence := max 70 confidence,
      sl := some (max i.resistance_high (cp * (1015/1000))),
      tp := some (min i.support_low (cp * (985/1000))) }
  else if decide (2 ≤ bullish_points cp pm i) && not_overbought i then
    { signal := "BUY", confidence := confidence,
      sl := some (min i.support_low (cp * (98/100))),
      tp := some (max i.resistance_high (cp * (102/100))) }
  else if decide (2 ≤ bearish_points cp pm i) && not_oversold i then
    { signal := "SELL", confidence := confidence,
      sl := some (max i.resistance_high (cp * (102/100))),
      tp := some (min i.support_low (cp * (98/100))) }
  else
    { signal := "NO SIGNAL", confidence := confidence, sl := none, tp := none }

/-- One row of the forecast dataframe built by forecast_prices. -/
structure ForecastRow where
  yhat : ℚ
  yhat_lower : ℚ
  yhat_upper : ℚ
deriving DecidableEq

/-- Source lines 155 to 181: forecast_prices.  None for fewer than 10
closes; otherwise the last 10 closes give a linear trend, projected for
the requested number of periods with a fixed 5 percent band. -/
def forecast_prices (cls : List ℚ) (periods : ℕ) : Option (List ForecastRow) :=
  if cls.length < 10 then none
  else
    let recent := cls.drop (cls.length - 10)
    let trend := (ilocNeg recent 1 - (recent[0]?).getD 0) / (recent.length : ℚ)
    let last_price := ilocNeg recent 1
    some ((List.range periods).map fun (k : ℕ) =>
      let forecast_price := last_price + trend * ((k : ℚ) + 1)
      { yhat := forecast_price,
        yhat_lower := forecast_price * (95/100),
        yhat_upper := forecast_price * (105/100) })

/-- Pandas Series.quantile with the default linear interpolation between
the two order statistics bracketing position q * (n - 1). -/
def seriesQuantile (xs : List ℚ) (q : ℚ) : ℚ :=
  let s := xs.insertionSort (· ≤ ·)
  if s.length = 0 then 0
  else
    let h : ℚ := q * ((s.length : ℚ) - 1)
    let lo : ℕ := (⌊h⌋).toNat
    let hi : ℕ := (⌈h⌉).toNat
    let a := (s[lo]?).getD 0
    let b := (s[hi]?).getD 0
    a + (h - (lo : ℚ)) * (b - a)

/-- Pandas Series.min over a nonempty series. -/
def seriesMin : List ℚ → ℚ
  | [] => 0
  | x :: xs => xs.foldl min x

/-- Pandas Series.max over a nonempty series. -/
def seriesMax : List ℚ → ℚ
  | [] => 0
  | x :: xs => xs.foldl max x

/-- Source lines 429 to 441: Prophet forecast integration.  When a
directional signal exists and the forecast is available, sl and tp are
recomputed as the min respectively max of the forecast level, the zone
level and the 2 percent offset from current price (mirrored for SELL). -/
def forecast_refinement (cls : List ℚ) (cp : ℚ) (i : IndicatorData) (d : Decision) :
    Decision :=
  if d.signal ≠ "NO SIGNAL" then
    match forecast_prices cls 30 with
    | some rows =>
      let forecast_tp : ℚ :=
        if d.signal = "BUY" then seriesQuantile (rows.map ForecastRow.yhat) (3/4)
        else seriesQuantile (rows.map ForecastRow.yhat) (1/4)
      let forecast_sl : ℚ :=
        if d.signal = "BUY" then seriesMin (rows.map ForecastRow.yhat_lower)
        else seriesMax (rows.map ForecastRow.yhat_upper)
      if d.signal = "BUY" then
        { d with sl := some (min forecast_sl (min i.support_low (cp * (98/100)))),
                 tp := some (max forecast_tp (max i.resistance_high (cp * (102/100)))) }
      else
        { d with sl := some (max forecast_sl (max i.resistance_high (cp * (102/100)))),
                 tp := some (min forecast_tp (min i.support_low (cp * (98/100)))) }
    | none => d
  else d

/-- Source lines 443 to 451: risk-reward ratio adjustment.  With risk
positive and reward below 1.5 risk, tp is moved to exactly 1.5 risk away
from current price in the direction of the signal. -/
def risk_reward_adjustment (cp : ℚ) (d : Decision) : Decision :=
  if d.signal ≠ "NO SIGNAL" then
    let risk := |cp - d.sl.getD 0|
    let reward := |d.tp.getD 0 - cp|
    if 0 < risk ∧ reward / risk < 3/2 then
      if d.signal = "BUY" then { d with tp := some (cp + risk * (3/2)) }
      else { d with tp := some (cp - risk * (3/2)) }
    else d
  else d

/-- One simulated breakout scenario of the snapshot (source lines 601 to
615): in the source each of the five fields is None unless the primary
decision is NO SIGNAL, and tp and sl hold the string N/A unless the
simulated signal fired, modelled here as Option values. -/
structure BreakoutScenario where
  rsi : ℚ
  stochastic : ℚ
  signal : String
  tp : Option ℚ
  sl : Option ℚ
deriving DecidableEq

/-- Source lines 495 to 535: breakout scenario simulation.  The RSI and
Stochastic values recomputed by the ta library on the two mutated candle
copies enter as the rsi_bull, stoch_bull, rsi_bear and stoch_bear fields
of IndicatorData; classification and tp and sl derivation follow the
source literally, including the forecast enhancement of the targets. -/
def breakout_scenarios (cls : List ℚ) (cp : ℚ) (i : IndicatorData) :
    BreakoutScenario × BreakoutScenario :=
  let bullish_signal := if 52 < i.rsi_bull ∧ 45 < i.stoch_bull then "BUY" else "NO SIGNAL"
  let bearish_signal := if i.rsi_bear < 48 ∧ i.stoch_bear < 55 then "SELL" else "NO SIGNAL"
  let bull_tp : Option ℚ :=
    if bullish_signal = "BUY" then some (i.resistance_high * (103/100)) else none
  let bull_sl : Option ℚ :=
    if bullish_signal = "BUY" then some (cp * (98/100)) else none
  let bear_tp : Option ℚ :=
    if bearish_signal = "SELL" then some (i.support_low * (97/100)) else none
  let bear_sl : Option ℚ :=
    if bearish_signal = "SELL" then some (cp * (102/100)) else none
  let tps : Option ℚ × Option ℚ :=
    if bullish_signal = "BUY" ∨ bearish_signal = "SELL" then
      match forecast_prices cls 30 with
      | some rows =>
        (if bullish_signal = "BUY" then
           some (max (seriesQuantile (rows.map ForecastRow.yhat) (3/4))
                     (i.resistance_high * (103/100)))
         else bull_tp,
         if bearish_signal = "SELL" then
           some (min (seriesQuantile (rows.map ForecastRow.yhat) (1/4))
                     (i.support_low * (97/100)))
         else bear_tp)
      | none => (bull_tp, bear_tp)
    else (bull_tp, bear_tp)
  ({ rsi := i.rsi_bull, stochastic := i.stoch_bull, signal := bullish_signal,
     tp := tps.1, sl := bull_sl },
   { rsi := i.rsi_bear, stochastic := i.stoch_bear, signal := bearish_signal,
     tp := tps.2, sl := bear_sl })

/-- The snapshot object of source lines 586 to 617.  The purely textual
fields (formatted indicator strings and zone strings) repeat values held
elsewhere in this structure and are not modelled; confidence is the
numeric value inside the confidence_status string. -/
structure Snapshot where
  status : String
  current_price : ℚ
  tp : ℚ
  sl : ℚ
  confidence : ℚ
  breakout_bullish : Option BreakoutScenario
  breakout_bearish : Option BreakoutScenario
deriving DecidableEq

/-- The snapshot slot of the returned record: an error string on the
guard failure paths (source lines 353, 363, 367), the snapshot object on
success. -/
inductive SnapshotPayload where
  | errMsg (msg : String)
  | obj (s : Snapshot)
deriving DecidableEq

/-- The record run_strategy returns (source lines 619 to 625).  The tp
and sl slots are JSON values that could be null, hence Option; the
source always stores a number there (0 when the internal value is
None). -/
structure StrategyResult where
  signal : String
  tp : Option ℚ
  sl : Option ℚ
  chart_base64 : String
  snapshot : SnapshotPayload
deriving DecidableEq

/-- The failure record of the guard stage: source line 353 and its twins
at lines 363 and 367, which differ only in the error message. -/
def error_result (msg : String) : StrategyResult :=
  { signal := "NO SIGNAL", tp := some 0, sl := some 0, chart_base64 := "",
    snapshot := .errMsg msg }

/-- Source lines 351 to 625: run_strategy.  Guard stage, decision stage,
forecast refinement, risk-reward adjustment, breakout simulation and the
returned record; chart generation is file input output and is modelled
by the empty string the chart variable is initialised with. -/
def run_strategy (df? : Option (List Candle)) (i : IndicatorData) :
    StrategyResult × Bool :=
  match df? with
  | none => (error_result "Error: Failed to fetch candle data", false)
  | some df =>
    if df.length < CANDLE_LIMIT then
      (error_result "Error: Failed to fetch candle data", false)
    else if i.ema100 = 0 ∨ i.ema200 = 0 then
      (error_result "Error: Invalid EMA data", false)
    else if i.upper_kc = 0 ∨ i.lower_kc = 0 then
      (error_result "Error: Invalid Keltner data", false)
    else
      let cls := closes df
      let cp := current_price df
      let pm := price_momentum df
      let d :=
        risk_reward_adjustment cp (forecast_refinement cls cp i (decision_stage cp pm i))
      let breakout? : Option (BreakoutScenario × BreakoutScenario) :=
        if d.signal = "NO SIGNAL" then some (breakout_scenarios cls cp i) else none
      ({ signal := d.signal,
         tp := some (d.tp.getD 0),
         sl := some (d.sl.getD 0),
         chart_base64 := "",
         snapshot := .obj
           { status := d.signal,
             current_price := cp,
             tp := d.tp.getD 0,
             sl := d.sl.getD 0,
             confidence := d.confidence,
             breakout_bullish := breakout?.map Prod.fst,
             breakout_bearish := breakout?.map Prod.snd } }, true)

/-- A JSON value as the CLI wrapper sees it. -/
inductive JValue where
  | num (q : ℚ)
  | str (s : String)
  | jnull
  | snap (p : SnapshotPayload)
deriving DecidableEq

/-- The dict literal run_strategy returns, as the association list of
its keys (source lines 619 to 625). -/
def resultDict (r : StrategyResult) : List (String × JValue) :=
  [("signal", .str r.signal),
   ("tp", match r.tp with | some v => .num v | none => .jnull),
   ("sl", match r.sl with | some v => .num v | none => .jnull),
   ("chart_base64", .str r.chart_base64),
   ("snapshot", .snap r.snapshot)]

/-- Python dict.get with a default value. -/
def dictGet (d : List (String × JValue)) (k : String) (dflt : JValue) : JValue :=
  match d.find? (fun kv => kv.fst == k) with
  | some kv => kv.snd
  | none => dflt

/-- Source line 696: the confidence field of the JSON response the CLI
wrapper emits, int(strategy_result.get(confidence key, 50)); int
truncates toward zero. -/
def cliConfidence (r : StrategyResult) : ℤ :=
  match dictGet (resultDict r) "confidence" (.num 50) with
  | .num q => q.num / (q.den : ℤ)
  | _ => 0

end AnalyzePair

namespace AnalyzePair

/-- A concrete 50-candle series with closes rising from 100 to 149, used
to evaluate the engine at a strong bullish input. -/
def dfRise : List Candle :=
  (List.range 50).map fun k =>
    { Open := (100 + k : ℚ), High := (100 + k : ℚ), Low := (100 + k : ℚ),
      Close := (100 + k : ℚ), Volume := 1000000 }

/-- Concrete indicator values that put the engine with dfRise on the
strong bullish branch of the decision stage. -/
def iStrong : IndicatorData :=
  { rsi_last := 60, rsi_prev := 55, stoch_k_last := 50, stoch_k_prev := 50,
    stoch_d_last := 50, ema100 := 110, ema200 := 100, upper_kc := 102,
    basis_kc := 100, lower_kc := 98, support_low := 95, support_high := 97,
    resistance_low := 148, resistance_high := 150,
    rsi_bull := 0, stoch_bull := 0, rsi_bear := 0, stoch_bear := 0 }

/-- A concrete flat 50-candle series with all closes equal to 100. -/
def dfFlat : List Candle :=
  (List.range 50).map fun _ =>
    { Open := 100, High := 100, Low := 100, Close := 100, Volume := 1000000 }

/-- Concrete indicator values on which the decision stage yields NO
SIGNAL with dfFlat (one bullish and one bearish point only, both from
the Stochastic, whose value 50 raises both of its flags at once), while
both simulated breakout scenarios fire. -/
def iNoSig : IndicatorData :=
  { rsi_last := 50, rsi_prev := 50, stoch_k_last := 50, stoch_k_prev := 50,
    stoch_d_last := 50, ema100 := 100, ema200 := 100, upper_kc := 102,
    basis_kc := 100, lower_kc := 98, support_low := 95, support_high := 97,
    resistance_low := 103, resistance_high := 105,
    rsi_bull := 60, stoch_bull := 60, rsi_bear := 40, stoch_bear := 40 }

end AnalyzePair

namespace AnalyzePair

theorem forecast_refinement_signal (cls : List ℚ) (cp : ℚ) (i : IndicatorData)
    (d : Decision) : (forecast_refinement cls cp i d).signal = d.signal := by
  unfold forecast_refinement
  split_ifs <;> (try rfl) <;> (split <;> rfl)

theorem forecast_refinement_confidence (cls : List ℚ) (cp : ℚ) (i : IndicatorData)
    (d : Decision) : (forecast_refinement cls cp i d).confidence = d.confidence := by
  unfold forecast_refinement
  split_ifs <;> (try rfl) <;> (split <;> rfl)

theorem risk_reward_signal (cp : ℚ) (d : Decision) :
    (risk_reward_adjustment cp d).signal = d.signal := by
  unfold risk_reward_adjustment
  dsimp only
  split_ifs <;> rfl

theorem risk_reward_sl (cp : ℚ) (d : Decision) :
    (risk_reward_adjustment cp d).sl = d.sl := by
  unfold risk_reward_adjustment
  dsimp only
  split_ifs <;> rfl

theorem risk_reward_confidence (cp : ℚ) (d : Decision) :
    (risk_reward_adjustment cp d).confidence = d.confidence := by
  unfold risk_reward_adjustment
  dsimp only
  split_ifs <;> rfl

theorem decision_stage_signal_cases (cp pm : ℚ) (i : IndicatorData) :
    (decision_stage cp pm i).signal = "BUY" ∨ (decision_stage cp pm i).signal = "SELL" ∨
      (decision_stage cp pm i).signal = "NO SIGNAL" := by
  unfold decision_stage
  split_ifs <;> simp

end AnalyzePair

namespace AnalyzePair

theorem run_strategy_none (i : IndicatorData) :
    run_strategy none i = (error_result "Error: Failed to fetch candle data", false) := rfl

theorem run_strategy_short (df : List Candle) (i : IndicatorData)
    (h : df.length < CANDLE_LIMIT) :
    run_strategy (some df) i = (error_result "Error: Failed to fetch candle data", false) := by
  unfold run_strategy
  dsimp only
  rw [if_pos h]

theorem run_strategy_bad_ema (df : List Candle) (i : IndicatorData)
    (hlen : ¬ df.length < CANDLE_LIMIT) (h : i.ema100 = 0 ∨ i.ema200 = 0) :
    run_strategy (some df) i = (error_result "Error: Invalid EMA data", false) := by
  unfold run_strategy
  dsimp only
  rw [if_neg hlen, if_pos h]

theorem run_strategy_bad_kc (df : List Candle) (i : IndicatorData)
    (hlen : ¬ df.length < CANDLE_LIMIT) (he : ¬(i.ema100 = 0 ∨ i.ema200 = 0))
    (h : i.upper_kc = 0 ∨ i.lower_kc = 0) :
    run_strategy (some df) i = (error_result "Error: Invalid Keltner data", false) := by
  unfold run_strategy
  dsimp only
  rw [if_neg hlen, if_neg he, if_pos h]

theorem run_strategy_success (df : List Candle) (i : IndicatorData)
    (hlen : ¬ df.length < CANDLE_LIMIT) (he : ¬(i.ema100 = 0 ∨ i.ema200 = 0))
    (hk : ¬(i.upper_kc = 0 ∨ i.lower_kc = 0)) :
    run_strategy (some df) i =
      (let cp := current_price df
       let d := risk_reward_adjustment cp (forecast_refinement (closes df) cp i
                  (decision_stage cp (price_momentum df) i))
       let breakout? : Option (BreakoutScenario × BreakoutScenario) :=
         if d.signal = "NO SIGNAL" then some (breakout_scenarios (closes df) cp i) else none
       ({ signal := d.signal, tp := some (d.tp.getD 0), sl := some (d.sl.getD 0),
          chart_base64 := "",
          snapshot := .obj
            { status := d.signal, current_price := cp, tp := d.tp.getD 0,
              sl := d.sl.getD 0, confidence := d.confidence,
              breakout_bullish := breakout?.map Prod.fst,
              breakout_bearish := breakout?.map Prod.snd } }, true)) := by
  unfold run_strategy
  dsimp only
  rw [if_neg hlen, if_neg he, if_neg hk]

theorem decision_stage_buy_levels (cp pm : ℚ) (i : IndicatorData) (hcp : 0 ≤ cp)
    (h : (decision_stage cp pm i).signal = "BUY") :
    ∃ s t, (decision_stage cp pm i).sl = some s ∧ (decision_stage cp pm i).tp = some t ∧
      s ≤ cp * (985/1000) ∧ cp * (1015/1000) ≤ t ∧
      min i.support_low (cp * (98/100)) ≤ s ∧ t ≤ max i.resistance_high (cp * (102/100)) := by
  unfold decision_stage at h ⊢
  split_ifs at h ⊢
  · refine ⟨_, _, rfl, rfl, min_le_right _ _, le_max_right _ _, ?_, ?_⟩
    · exact min_le_min le_rfl (by nlinarith)
    · exact max_le_max le_rfl (by nlinarith)
  · simp at h
  · exact ⟨_, _, rfl, rfl, le_trans (min_le_right _ _) (by nlinarith),
      le_trans (by nlinarith) (le_max_right _ _), le_rfl, le_rfl⟩
  · simp at h
  · simp at h

theorem decision_stage_sell_levels (cp pm : ℚ) (i : IndicatorData) (hcp : 0 ≤ cp)
    (h : (decision_stage cp pm i).signal = "SELL") :
    ∃ s t, (decision_stage cp pm i).sl = some s ∧ (decision_stage cp pm i).tp = some t ∧
      cp * (1015/1000) ≤ s ∧ t ≤ cp * (985/1000) ∧
      s ≤ max i.resistance_high (cp * (102/100)) ∧ min i.support_low (cp * (98/100)) ≤ t := by
  unfold decision_stage at h ⊢
  split_ifs at h ⊢
  · simp at h
  · refine ⟨_, _, rfl, rfl, le_max_right _ _, min_le_right _ _, ?_, ?_⟩
    · exact max_le_max le_rfl (by nlinarith)
    · exact min_le_min le_rfl (by nlinarith)
  · simp at h
  · exact ⟨_, _, rfl, rfl, le_trans (by nlinarith) (le_max_right _ _),
      le_trans (min_le_right _ _) (by nlinarith), le_rfl, le_rfl⟩
  · simp at h

theorem decision_stage_nosig_levels (cp pm : ℚ) (i : IndicatorData)
    (h : (decision_stage cp pm i).signal = "NO SIGNAL") :
    (decision_stage cp pm i).sl = none ∧ (decision_stage cp pm i).tp = none := by
  unfold decision_stage at h ⊢
  split_ifs at h ⊢ <;> simp_all

theorem forecast_refinement_buy_levels (cls : List ℚ) (cp : ℚ) (i : IndicatorData)
    (d : Decision) (hcp : 0 ≤ cp) (hsig : d.signal = "BUY")
    (s0 t0 : ℚ) (hs0 : d.sl = some s0) (ht0 : d.tp = some t0)
    (hs0c : s0 ≤ cp * (985/1000)) (ht0c : cp * (1015/1000) ≤ t0)
    (hs0l : min i.support_low (cp * (98/100)) ≤ s0)
    (ht0u : t0 ≤ max i.resistance_high (cp * (102/100))) :
    ∃ s t, (forecast_refinement cls cp i d).sl = some s ∧
      (forecast_refinement cls cp i d).tp = some t ∧
      s ≤ s0 ∧ s ≤ cp * (985/1000) ∧ t0 ≤ t ∧ cp * (1015/1000) ≤ t := by
  unfold forecast_refinement
  rw [hsig]
  simp only [ne_eq, String.reduceEq, not_false_eq_true, if_true, if_pos rfl]
  cases hfc : forecast_prices cls 30 with
  | none => exact ⟨s0, t0, hs0, ht0, le_rfl, hs0c, le_rfl, ht0c⟩
  | some rows =>
    refine ⟨_, _, rfl, rfl, ?_, ?_, ?_, ?_⟩
    · exact le_trans (min_le_right _ _) hs0l
    · exact le_trans (min_le_right _ _) (le_trans (min_le_right _ _) (by nlinarith))
    · exact le_trans ht0u (le_max_right _ _)
    · exact le_trans (by nlinarith) (le_trans (le_max_right _ _) (le_max_right _ _))

theorem forecast_refinement_sell_levels (cls : List ℚ) (cp : ℚ) (i : IndicatorData)
    (d : Decision) (hcp : 0 ≤ cp) (hsig : d.signal = "SELL")
    (s0 t0 : ℚ) (hs0 : d.sl = some s0) (ht0 : d.tp = some t0)
    (hs0c : cp * (1015/1000) ≤ s0) (ht0c : t0 ≤ cp * (985/1000))
    (hs0u : s0 ≤ max i.resistance_high (cp * (102/100)))
    (ht0l : min i.support_low (cp * (98/100)) ≤ t0) :
    ∃ s t, (forecast_refinement cls cp i d).sl = some s ∧
      (forecast_refinement cls cp i d).tp = some t ∧
      s0 ≤ s ∧ cp * (1015/1000) ≤ s ∧ t ≤ t0 ∧ t ≤ cp * (985/1000) := by
  unfold forecast_refinement
  rw [hsig]
  simp only [ne_eq, String.reduceEq, not_false_eq_true, if_true, if_false]
  cases hfc : forecast_prices cls 30 with
  | none => exact ⟨s0, t0, hs0, ht0, le_rfl, hs0c, le_rfl, ht0c⟩
  | some rows =>
    refine ⟨_, _, rfl, rfl, ?_, ?_, ?_, ?_⟩
    · exact le_trans hs0u (le_max_right _ _)
    · exact le_trans (by nlinarith) (le_trans (le_max_right _ _) (le_max_right _ _))
    · exact le_trans (min_le_right _ _) ht0l
    · exact le_trans (min_le_right _ _) (le_trans (min_le_right _ _) (by nlinarith))

end AnalyzePair

namespace AnalyzePair

theorem risk_reward_buy (cp : ℚ) (d : Decision) (hsig : d.signal = "BUY")
    (s t : ℚ) (hs : d.sl = some s) (ht : d.tp = some t)
    (hrisk : s < cp) (hreward : cp ≤ t) :
    ∃ t2, (risk_reward_adjustment cp d).sl = some s ∧
      (risk_reward_adjustment cp d).tp = some t2 ∧
      t ≤ t2 ∧ cp ≤ t2 ∧ (cp - s) * (3/2) ≤ t2 - cp ∧
      (|t - cp| / |cp - s| < 3/2 → t2 - cp = (cp - s) * (3/2)) := by
  have hrpos : (0 : ℚ) < cp - s := by linarith
  have habs1 : |cp - s| = cp - s := abs_of_pos hrpos
  have habs2 : |t - cp| = t - cp := abs_of_nonneg (by linarith)
  unfold risk_reward_adjustment
  rw [hsig]
  simp only [ne_eq, String.reduceEq, not_false_eq_true, if_true, if_pos rfl, hs, ht,
    Option.getD_some]
  rw [habs1, habs2]
  by_cases hcond : 0 < cp - s ∧ (t - cp) / (cp - s) < 3/2
  · rw [if_pos hcond]
    have h32 : t - cp < (cp - s) * (3/2) := by
      have := (div_lt_iff₀ hrpos).mp hcond.2
      linarith
    refine ⟨cp + (cp - s) * (3/2), rfl, rfl, by linarith, by nlinarith, by linarith, ?_⟩
    intro _
    ring
  · rw [if_neg hcond]
    have hge : 3/2 ≤ (t - cp) / (cp - s) := by
      by_contra hlt
      exact hcond ⟨hrpos, by linarith [lt_of_not_le hlt]⟩
    have h32 : (cp - s) * (3/2) ≤ t - cp := by
      have := (le_div_iff₀ hrpos).mp hge
      linarith
    refine ⟨t, hs, ht, le_rfl, hreward, h32, ?_⟩
    intro hc
    exact absurd hc (not_lt.mpr hge)

theorem risk_reward_sell (cp : ℚ) (d : Decision) (hsig : d.signal = "SELL")
    (s t : ℚ) (hs : d.sl = some s) (ht : d.tp = some t)
    (hrisk : cp < s) (hreward : t ≤ cp) :
    ∃ t2, (risk_reward_adjustment cp d).sl = some s ∧
      (risk_reward_adjustment cp d).tp = some t2 ∧
      t2 ≤ t ∧ t2 ≤ cp ∧ (s - cp) * (3/2) ≤ cp - t2 ∧
      (|t - cp| / |cp - s| < 3/2 → cp - t2 = (s - cp) * (3/2)) := by
  have hrpos : (0 : ℚ) < s - cp := by linarith
  have habs1 : |cp - s| = s - cp := by rw [abs_of_neg (by linarith : cp - s < 0)]; ring
  have habs2 : |t - cp| = cp - t := by rw [abs_of_nonpos (by linarith : t - cp ≤ 0)]; ring
  unfold risk_reward_adjustment
  rw [hsig]
  simp only [ne_eq, String.reduceEq, not_false_eq_true, if_true, if_false, hs, ht,
    Option.getD_some]
  rw [habs1, habs2]
  by_cases hcond : 0 < s - cp ∧ (cp - t) / (s - cp) < 3/2
  · rw [if_pos hcond]
    have h32 : cp - t < (s - cp) * (3/2) := by
      have := (div_lt_iff₀ hrpos).mp hcond.2
      linarith
    refine ⟨cp - (s - cp) * (3/2), rfl, rfl, by linarith, by nlinarith, by linarith, ?_⟩
    intro _
    ring
  · rw [if_neg hcond]
    have hge : 3/2 ≤ (cp - t) / (s - cp) := by
      by_contra hlt
      exact hcond ⟨hrpos, by linarith [lt_of_not_le hlt]⟩
    have h32 : (s - cp) * (3/2) ≤ cp - t := by
      have := (le_div_iff₀ hrpos).mp hge
      linarith
    refine ⟨t, hs, ht, le_rfl, hreward, h32, ?_⟩
    intro hc
    exact absurd hc (not_lt.mpr hge)

end AnalyzePair

namespace AnalyzePair

/-- C1: every run of run_strategy on a positively priced candle series that
emits a BUY or SELL decision returns take-profit and stop-loss levels with
reward to risk ratio at least 3/2, and when the ratio entering the
risk-reward stage was below 3/2 the recomputed take-profit attains the
ratio 3/2 exactly in the direction of the signal. -/
theorem c1_risk_reward_ratio (df : List Candle) (i : IndicatorData)
    (hcp : 0 < current_price df)
    (hsig : (run_strategy (some df) i).1.signal = "BUY" ∨
            (run_strategy (some df) i).1.signal = "SELL") :
    ∃ t s, (run_strategy (some df) i).1.tp = some t ∧
      (run_strategy (some df) i).1.sl = some s ∧
      3/2 ≤ |t - current_price df| / |s - current_price df| ∧
      (|(forecast_refinement (closes df) (current_price df) i
            (decision_stage (current_price df) (price_momentum df) i)).tp.getD 0 -
          current_price df| /
        |current_price df -
          (forecast_refinement (closes df) (current_price df) i
            (decision_stage (current_price df) (price_momentum df) i)).sl.getD 0| < 3/2 →
        |t - current_price df| = 3/2 * |s - current_price df|) := by
  by_cases hlen : df.length < CANDLE_LIMIT
  · rw [run_strategy_short df i hlen] at hsig
    simp [error_result] at hsig
  by_cases he : i.ema100 = 0 ∨ i.ema200 = 0
  · rw [run_strategy_bad_ema df i hlen he] at hsig
    simp [error_result] at hsig
  by_cases hk : i.upper_kc = 0 ∨ i.lower_kc = 0
  · rw [run_strategy_bad_kc df i hlen he hk] at hsig
    simp [error_result] at hsig
  rw [run_strategy_success df i hlen he hk] at hsig ⊢
  dsimp only at hsig ⊢
  set cp := current_price df with hcpdef
  set pm := price_momentum df with hpmdef
  set cls := closes df with hclsdef
  set d0 := decision_stage cp pm i with hd0
  set d1 := forecast_refinement cls cp i d0 with hd1
  rw [risk_reward_signal, forecast_refinement_signal] at hsig
  rcases hsig with hb | hb
  · obtain ⟨s0, t0, hs0, ht0, hs0c, ht0c, hs0l, ht0u⟩ :=
      decision_stage_buy_levels cp pm i hcp.le hb
    obtain ⟨s1, t1, hs1, ht1, hss, hs1c, htt, ht1c⟩ :=
      forecast_refinement_buy_levels cls cp i d0 hcp.le hb s0 t0 hs0 ht0 hs0c ht0c hs0l ht0u
    have hsig1 : d1.signal = "BUY" := by
      rw [hd1, forecast_refinement_signal]; exact hb
    have hrisk : s1 < cp := lt_of_le_of_lt hs1c (by nlinarith)
    have hrew : cp ≤ t1 := le_trans (by nlinarith) ht1c
    obtain ⟨t2, hsl2, htp2, htt2, hcp2, hinv, hexact⟩ :=
      risk_reward_buy cp d1 hsig1 s1 t1 hs1 ht1 hrisk hrew
    refine ⟨t2, s1, ?_, ?_, ?_, ?_⟩
    · rw [htp2]; rfl
    · rw [hsl2]; rfl
    · have habs1 : |s1 - cp| = cp - s1 := by
        rw [abs_of_neg (by linarith : s1 - cp < 0)]; ring
      have habs2 : |t2 - cp| = t2 - cp := abs_of_nonneg (by linarith)
      rw [habs1, habs2, le_div_iff₀ (by linarith : (0:ℚ) < cp - s1)]
      linarith
    · intro hpre
      rw [hs1, ht1] at hpre
      simp only [Option.getD_some] at hpre
      have habs0 : |cp - s1| = cp - s1 := abs_of_pos (by linarith)
      have hx := hexact (by rw [habs0] at hpre; rw [habs0]; exact hpre)
      have habs1 : |s1 - cp| = cp - s1 := by
        rw [abs_of_neg (by linarith : s1 - cp < 0)]; ring
      have habs2 : |t2 - cp| = t2 - cp := abs_of_nonneg (by linarith)
      rw [habs1, habs2, hx]
      ring
  · obtain ⟨s0, t0, hs0, ht0, hs0c, ht0c, hs0u, ht0l⟩ :=
      decision_stage_sell_levels cp pm i hcp.le hb
    obtain ⟨s1, t1, hs1, ht1, hss, hs1c, htt, ht1c⟩ :=
      forecast_refinement_sell_levels cls cp i d0 hcp.le hb s0 t0 hs0 ht0 hs0c ht0c hs0u ht0l
    have hsig1 : d1.signal = "SELL" := by
      rw [hd1, forecast_refinement_signal]; exact hb
    have hrisk : cp < s1 := lt_of_lt_of_le (by nlinarith) hs1c
    have hrew : t1 ≤ cp := le_trans ht1c (by nlinarith)
    obtain ⟨t2, hsl2, htp2, htt2, hcp2, hinv, hexact⟩ :=
      risk_reward_sell cp d1 hsig1 s1 t1 hs1 ht1 hrisk hrew
    refine ⟨t2, s1, ?_, ?_, ?_, ?_⟩
    · rw [htp2]; rfl
    · rw [hsl2]; rfl
    · have habs1 : |s1 - cp| = s1 - cp := abs_of_pos (by linarith)
      have habs2 : |t2 - cp| = cp - t2 := by
        rw [abs_of_nonpos (by linarith : t2 - cp ≤ 0)]; ring
      rw [habs1, habs2, le_div_iff₀ (by linarith : (0:ℚ) < s1 - cp)]
      linarith
    · intro hpre
      rw [hs1, ht1] at hpre
      simp only [Option.getD_some] at hpre
      have habs0 : |cp - s1| = s1 - cp := by
        rw [abs_of_neg (by linarith : cp - s1 < 0)]; ring
      have hx := hexact (by rw [habs0] at hpre; rw [habs0]; exact hpre)
      have habs1 : |s1 - cp| = s1 - cp := abs_of_pos (by linarith)
      have habs2 : |t2 - cp| = cp - t2 := by
        rw [abs_of_nonpos (by linarith : t2 - cp ≤ 0)]; ring
      rw [habs1, habs2, hx]
      ring
end AnalyzePair

namespace AnalyzePair

/-- C2: a missing or too short candle series, and a zero EMA or Keltner
band on a long enough series, all make run_strategy return the failure
flag with signal NO SIGNAL and the no-price sentinel 0 in both risk
level slots. -/
theorem c2_guard_failures (df? : Option (List Candle)) (i : IndicatorData)
    (h : df? = none ∨ ∃ df, df? = some df ∧
          (df.length < CANDLE_LIMIT ∨ i.ema100 = 0 ∨ i.ema200 = 0 ∨
            i.upper_kc = 0 ∨ i.lower_kc = 0)) :
    (run_strategy df? i).2 = false ∧ (run_strategy df? i).1.signal = "NO SIGNAL" ∧
      (run_strategy df? i).1.tp = some 0 ∧ (run_strategy df? i).1.sl = some 0 := by
  rcases h with rfl | ⟨df, rfl, hcase⟩
  · exact ⟨rfl, rfl, rfl, rfl⟩
  · by_cases hlen : df.length < CANDLE_LIMIT
    · rw [run_strategy_short df i hlen]
      exact ⟨rfl, rfl, rfl, rfl⟩
    · by_cases he : i.ema100 = 0 ∨ i.ema200 = 0
      · rw [run_strategy_bad_ema df i hlen he]
        exact ⟨rfl, rfl, rfl, rfl⟩
      · have hk : i.upper_kc = 0 ∨ i.lower_kc = 0 := by tauto
        rw [run_strategy_bad_kc df i hlen he hk]
        exact ⟨rfl, rfl, rfl, rfl⟩

theorem c2_witness :
    (run_strategy none iStrong).2 = false ∧
      (run_strategy none iStrong).1.signal = "NO SIGNAL" ∧
      (run_strategy none iStrong).1.tp = some 0 ∧
      (run_strategy none iStrong).1.sl = some 0 :=
  c2_guard_failures none iStrong (Or.inl rfl)

theorem decision_stage_signal_eq (cp pm : ℚ) (i : IndicatorData) :
    (decision_stage cp pm i).signal =
      (if bullish_price cp i = true ∧ bullish_ema i = true ∧
          bullish_momentum pm = true then "BUY"
       else if bearish_price cp i = true ∧ bearish_ema i = true ∧
          bearish_momentum pm = true then "SELL"
       else if 2 ≤ bullish_points cp pm i ∧ i.rsi_last < 70 ∧ i.stoch_k_last < 80 then "BUY"
       else if 2 ≤ bearish_points cp pm i ∧ 30 < i.rsi_last ∧ 20 < i.stoch_k_last then "SELL"
       else "NO SIGNAL") := by
  simp only [decision_stage, not_overbought, not_oversold, Bool.and_eq_true,
    decide_eq_true_eq, and_assoc]
  split_ifs <;> rfl

/-- C3: past the guard stage, the signal of run_strategy is exactly the
first-match-wins ladder of the four guard conditions of the decision
stage, and no run of run_strategy ever produces a signal other than BUY,
SELL or NO SIGNAL. -/
theorem c3_decision_ladder (df : List Candle) (i : IndicatorData)
    (hlen : ¬ df.length < CANDLE_LIMIT)
    (he : ¬(i.ema100 = 0 ∨ i.ema200 = 0)) (hk : ¬(i.upper_kc = 0 ∨ i.lower_kc = 0)) :
    ((run_strategy (some df) i).1.signal =
      (if bullish_price (current_price df) i = true ∧ bullish_ema i = true ∧
          bullish_momentum (price_momentum df) = true then "BUY"
       else if bearish_price (current_price df) i = true ∧ bearish_ema i = true ∧
          bearish_momentum (price_momentum df) = true then "SELL"
       else if 2 ≤ bullish_points (current_price df) (price_momentum df) i ∧
          i.rsi_last < 70 ∧ i.stoch_k_last < 80 then "BUY"
       else if 2 ≤ bearish_points (current_price df) (price_momentum df) i ∧
          30 < i.rsi_last ∧ 20 < i.stoch_k_last then "SELL"
       else "NO SIGNAL")) ∧
    ∀ (df2? : Option (List Candle)) (j : IndicatorData),
      (run_strategy df2? j).1.signal = "BUY" ∨ (run_strategy df2? j).1.signal = "SELL" ∨
        (run_strategy df2? j).1.signal = "NO SIGNAL" := by
  constructor
  · rw [run_strategy_success df i hlen he hk]
    dsimp only
    rw [risk_reward_signal, forecast_refinement_signal, decision_stage_signal_eq]
  · intro df2? j
    match df2? with
    | none => exact Or.inr (Or.inr rfl)
    | some df2 =>
      by_cases h1 : df2.length < CANDLE_LIMIT
      · rw [run_strategy_short df2 j h1]
        exact Or.inr (Or.inr rfl)
      by_cases h2 : j.ema100 = 0 ∨ j.ema200 = 0
      · rw [run_strategy_bad_ema df2 j h1 h2]
        exact Or.inr (Or.inr rfl)
      by_cases h3 : j.upper_kc = 0 ∨ j.lower_kc = 0
      · rw [run_strategy_bad_kc df2 j h1 h2 h3]
        exact Or.inr (Or.inr rfl)
      rw [run_strategy_success df2 j h1 h2 h3]
      dsimp only
      rw [risk_reward_signal, forecast_refinement_signal]
      exact decision_stage_signal_cases _ _ j

set_option maxRecDepth 40000 in
theorem c3_witness : (run_strategy (some dfRise) iStrong).1.signal = "BUY" := by
  have h := c3_decision_ladder dfRise iStrong (by with_unfolding_all decide)
    (by with_unfolding_all decide) (by with_unfolding_all decide)
  rw [h.1]
  with_unfolding_all decide

end AnalyzePair

namespace AnalyzePair

/-- C4 counterexample: at the concrete indicator snapshot iNoSig, whose
Stochastic percent K value is 50, the Stochastic feature raises its
bullish and its bearish flag at the same time, so the five features are
not all mutually exclusive. -/
theorem c4_counterexample :
    bullish_stoch iNoSig = true ∧ bearish_stoch iNoSig = true := by
  with_unfolding_all decide

/-- C4 (amended): the RSI, price versus Keltner basis, EMA pair and
momentum features each never raise their bullish and bearish flags
together (for the price and EMA features given nonnegative basis and
slow EMA values); the Stochastic feature does not satisfy this, as any
percent K value strictly between 45 and 55 raises both of its flags. -/
theorem c4_flags_mutually_exclusive (cp pm : ℚ) (i : IndicatorData)
    (hb : 0 ≤ i.basis_kc) (he : 0 ≤ i.ema200) :
    ¬(bullish_rsi i = true ∧ bearish_rsi i = true) ∧
    ¬(bullish_price cp i = true ∧ bearish_price cp i = true) ∧
    ¬(bullish_ema i = true ∧ bearish_ema i = true) ∧
    ¬(bullish_momentum pm = true ∧ bearish_momentum pm = true) := by
  refine ⟨?_, ?_, ?_, ?_⟩ <;> rintro ⟨h1, h2⟩
  · simp only [bullish_rsi, rsi_crossover, bearish_rsi, rsi_crossunder, Bool.or_eq_true,
      Bool.and_eq_true, decide_eq_true_eq] at h1 h2
    rcases h1 with ⟨a, b⟩ | a <;> rcases h2 with ⟨c, d⟩ | c <;> linarith
  · simp only [bullish_price, bearish_price, decide_eq_true_eq] at h1 h2
    nlinarith
  · simp only [bullish_ema, bearish_ema, decide_eq_true_eq] at h1 h2
    nlinarith
  · simp only [bullish_momentum, bearish_momentum, decide_eq_true_eq] at h1 h2
    linarith

theorem c4_witness :
    ¬(bullish_rsi iStrong = true ∧ bearish_rsi iStrong = true) :=
  (c4_flags_mutually_exclusive 149 10 iStrong (by with_unfolding_all decide)
    (by with_unfolding_all decide)).1

theorem bool_toNat_le_one (b : Bool) : b.toNat ≤ 1 := by
  cases b <;> decide

theorem bullish_points_le_five (cp pm : ℚ) (i : IndicatorData) :
    bullish_points cp pm i ≤ 5 := by
  unfold bullish_points
  have h1 := bool_toNat_le_one (bullish_rsi i)
  have h2 := bool_toNat_le_one (bullish_stoch i)
  have h3 := bool_toNat_le_one (bullish_price cp i)
  have h4 := bool_toNat_le_one (bullish_ema i)
  have h5 := bool_toNat_le_one (bullish_momentum pm)
  omega

theorem bearish_points_le_five (cp pm : ℚ) (i : IndicatorData) :
    bearish_points cp pm i ≤ 5 := by
  unfold bearish_points
  have h1 := bool_toNat_le_one (bearish_rsi i)
  have h2 := bool_toNat_le_one (bearish_stoch i)
  have h3 := bool_toNat_le_one (bearish_price cp i)
  have h4 := bool_toNat_le_one (bearish_ema i)
  have h5 := bool_toNat_le_one (bearish_momentum pm)
  omega

theorem voting_confidence_bounds (cp pm : ℚ) (i : IndicatorData) :
    0 ≤ (max (bullish_points cp pm i) (bearish_points cp pm i) : ℚ) / 5 * 100 ∧
      (max (bullish_points cp pm i) (bearish_points cp pm i) : ℚ) / 5 * 100 ≤ 100 := by
  have hb := bullish_points_le_five cp pm i
  have hs := bearish_points_le_five cp pm i
  have hqb : ((bullish_points cp pm i : ℚ)) ≤ 5 := by exact_mod_cast hb
  have hqs : ((bearish_points cp pm i : ℚ)) ≤ 5 := by exact_mod_cast hs
  have hq : (max (bullish_points cp pm i) (bearish_points cp pm i) : ℚ) ≤ 5 :=
    max_le hqb hqs
  have hq0 : (0:ℚ) ≤ (max (bullish_points cp pm i) (bearish_points cp pm i) : ℚ) :=
    le_trans (Nat.cast_nonneg _) (le_max_left _ _)
  constructor
  · linarith
  · linarith

/-- C5: the voting stage confidence is the larger points count divided
by five as a percentage; the decision stage keeps it for medium and no
signal outcomes and floors it at 70 on the two strong branches, so the
final confidence always lies between 0 and 100 and is at least 70 when a
strong condition fires. -/
theorem c5_confidence (cp pm : ℚ) (i : IndicatorData) :
    ((decision_stage cp pm i).confidence =
      (if (bullish_price cp i && bullish_ema i && bullish_momentum pm) = true ∨
          (bearish_price cp i && bearish_ema i && bearish_momentum pm) = true
        then max 70 ((max (bullish_points cp pm i) (bearish_points cp pm i) : ℚ) / 5 * 100)
        else (max (bullish_points cp pm i) (bearish_points cp pm i) : ℚ) / 5 * 100)) ∧
    0 ≤ (decision_stage cp pm i).confidence ∧ (decision_stage cp pm i).confidence ≤ 100 ∧
    ((bullish_price cp i && bullish_ema i && bullish_momentum pm) = true ∨
        (bearish_price cp i && bearish_ema i && bearish_momentum pm) = true →
      70 ≤ (decision_stage cp pm i).confidence) := by
  obtain ⟨hq0, hq100⟩ := voting_confidence_bounds cp pm i
  have hmain : (decision_stage cp pm i).confidence =
      (if (bullish_price cp i && bullish_ema i && bullish_momentum pm) = true ∨
          (bearish_price cp i && bearish_ema i && bearish_momentum pm) = true
        then max 70 ((max (bullish_points cp pm i) (bearish_points cp pm i) : ℚ) / 5 * 100)
        else (max (bullish_points cp pm i) (bearish_points cp pm i) : ℚ) / 5 * 100) := by
    unfold decision_stage
    split_ifs <;> first
      | rfl
      | tauto
  refine ⟨hmain, ?_, ?_, ?_⟩
  · rw [hmain]
    split_ifs with h
    · exact le_trans hq0 (le_max_right _ _)
    · exact hq0
  · rw [hmain]
    split_ifs with h
    · exact max_le (by norm_num) hq100
    · exact hq100
  · intro h
    rw [hmain, if_pos h]
    exact le_max_left _ _

end AnalyzePair

namespace AnalyzePair

theorem forecast_refinement_nosig (cls : List ℚ) (cp : ℚ) (i : IndicatorData)
    (d : Decision) (h : d.signal = "NO SIGNAL") : forecast_refinement cls cp i d = d := by
  unfold forecast_refinement
  rw [h]
  simp

theorem risk_reward_nosig (cp : ℚ) (d : Decision) (h : d.signal = "NO SIGNAL") :
    risk_reward_adjustment cp d = d := by
  unfold risk_reward_adjustment
  rw [h]
  simp

theorem breakout_scenarios_classified (cls : List ℚ) (cp : ℚ) (i : IndicatorData) :
    ((breakout_scenarios cls cp i).1.signal = "BUY" ↔ 52 < i.rsi_bull ∧ 45 < i.stoch_bull) ∧
    ((breakout_scenarios cls cp i).1.signal = "BUY" ∨
      (breakout_scenarios cls cp i).1.signal = "NO SIGNAL") ∧
    ((breakout_scenarios cls cp i).2.signal = "SELL" ↔ i.rsi_bear < 48 ∧ i.stoch_bear < 55) ∧
    ((breakout_scenarios cls cp i).2.signal = "SELL" ∨
      (breakout_scenarios cls cp i).2.signal = "NO SIGNAL") := by
  unfold breakout_scenarios
  dsimp only
  split_ifs <;> simp_all

/-- C6: past the guard stage the snapshot is the structured object; when
the primary decision is NO SIGNAL both breakout sub-objects are present
and each is classified by the fixed thresholds (bullish copy BUY exactly
when its RSI exceeds 52 and its percent K exceeds 45, bearish copy SELL
exactly when its RSI is below 48 and its percent K below 55, NO SIGNAL
otherwise); when a primary BUY or SELL fires both sub-objects are
absent. -/
theorem c6_breakout_iff (df : List Candle) (i : IndicatorData)
    (hlen : ¬ df.length < CANDLE_LIMIT)
    (he : ¬(i.ema100 = 0 ∨ i.ema200 = 0)) (hk : ¬(i.upper_kc = 0 ∨ i.lower_kc = 0)) :
    ∃ s, (run_strategy (some df) i).1.snapshot = .obj s ∧
      ((run_strategy (some df) i).1.signal = "NO SIGNAL" →
        s.breakout_bullish = some (breakout_scenarios (closes df) (current_price df) i).1 ∧
        s.breakout_bearish = some (breakout_scenarios (closes df) (current_price df) i).2 ∧
        ((breakout_scenarios (closes df) (current_price df) i).1.signal = "BUY" ↔
          52 < i.rsi_bull ∧ 45 < i.stoch_bull) ∧
        ((breakout_scenarios (closes df) (current_price df) i).1.signal = "BUY" ∨
          (breakout_scenarios (closes df) (current_price df) i).1.signal = "NO SIGNAL") ∧
        ((breakout_scenarios (closes df) (current_price df) i).2.signal = "SELL" ↔
          i.rsi_bear < 48 ∧ i.stoch_bear < 55) ∧
        ((breakout_scenarios (closes df) (current_price df) i).2.signal = "SELL" ∨
          (breakout_scenarios (closes df) (current_price df) i).2.signal = "NO SIGNAL")) ∧
      ((run_strategy (some df) i).1.signal ≠ "NO SIGNAL" →
        s.breakout_bullish = none ∧ s.breakout_bearish = none) := by
  rw [run_strategy_success df i hlen he hk]
  dsimp only
  refine ⟨_, rfl, ?_, ?_⟩
  · intro hns
    rw [if_pos hns]
    obtain ⟨hc1, hc2, hc3, hc4⟩ :=
      breakout_scenarios_classified (closes df) (current_price df) i
    exact ⟨rfl, rfl, hc1, hc2, hc3, hc4⟩
  · intro hns
    rw [if_neg hns]
    exact ⟨rfl, rfl⟩

set_option maxRecDepth 40000 in
theorem c6_witness :
    ∃ s, (run_strategy (some dfFlat) iNoSig).1.snapshot = .obj s ∧
      ((run_strategy (some dfFlat) iNoSig).1.signal = "NO SIGNAL" →
        s.breakout_bullish =
          some (breakout_scenarios (closes dfFlat) (current_price dfFlat) iNoSig).1 ∧
        s.breakout_bearish =
          some (breakout_scenarios (closes dfFlat) (current_price dfFlat) iNoSig).2 ∧
        ((breakout_scenarios (closes dfFlat) (current_price dfFlat) iNoSig).1.signal = "BUY" ↔
          52 < iNoSig.rsi_bull ∧ 45 < iNoSig.stoch_bull) ∧
        ((breakout_scenarios (closes dfFlat) (current_price dfFlat) iNoSig).1.signal = "BUY" ∨
          (breakout_scenarios (closes dfFlat) (current_price dfFlat) iNoSig).1.signal =
            "NO SIGNAL") ∧
        ((breakout_scenarios (closes dfFlat) (current_price dfFlat) iNoSig).2.signal = "SELL" ↔
          iNoSig.rsi_bear < 48 ∧ iNoSig.stoch_bear < 55) ∧
        ((breakout_scenarios (closes dfFlat) (current_price dfFlat) iNoSig).2.signal = "SELL" ∨
          (breakout_scenarios (closes dfFlat) (current_price dfFlat) iNoSig).2.signal =
            "NO SIGNAL")) ∧
      ((run_strategy (some dfFlat) iNoSig).1.signal ≠ "NO SIGNAL" →
        s.breakout_bullish = none ∧ s.breakout_bearish = none) :=
  c6_breakout_iff dfFlat iNoSig (by with_unfolding_all decide)
    (by with_unfolding_all decide) (by with_unfolding_all decide)

set_option maxRecDepth 40000 in
/-- C9 counterexample: a successful run with decision NO SIGNAL whose
returned record carries the number 0, not a null value, in the tp and sl
slots, contradicting the claim that they are null or undefined there. -/
theorem c9_counterexample :
    (run_strategy (some dfFlat) iNoSig).2 = true ∧
    (run_strategy (some dfFlat) iNoSig).1.signal = "NO SIGNAL" ∧
    (run_strategy (some dfFlat) iNoSig).1.tp = some 0 ∧
    (run_strategy (some dfFlat) iNoSig).1.sl = some 0 ∧
    (run_strategy (some dfFlat) iNoSig).1.tp ≠ none ∧
    (run_strategy (some dfFlat) iNoSig).1.sl ≠ none := by
  with_unfolding_all decide

/-- C9 (amended): on success the returned record stores the sentinel
number 0 in both risk level slots when the decision is NO SIGNAL (the
internal values are None, serialised as 0, not as null), and for BUY and
SELL it stores concrete prices strictly on the expected sides of the
current price. -/
theorem c9_no_signal_sentinel (df : List Candle) (i : IndicatorData)
    (hcp : 0 < current_price df)
    (hsucc : (run_strategy (some df) i).2 = true) :
    ((run_strategy (some df) i).1.signal = "NO SIGNAL" →
      (run_strategy (some df) i).1.tp = some 0 ∧ (run_strategy (some df) i).1.sl = some 0) ∧
    ((run_strategy (some df) i).1.signal = "BUY" →
      ∃ t s, (run_strategy (some df) i).1.tp = some t ∧
        (run_strategy (some df) i).1.sl = some s ∧
        s < current_price df ∧ current_price df < t) ∧
    ((run_strategy (some df) i).1.signal = "SELL" →
      ∃ t s, (run_strategy (some df) i).1.tp = some t ∧
        (run_strategy (some df) i).1.sl = some s ∧
        current_price df < s ∧ t < current_price df) := by
  by_cases hlen : df.length < CANDLE_LIMIT
  · rw [run_strategy_short df i hlen] at hsucc
    simp at hsucc
  by_cases he : i.ema100 = 0 ∨ i.ema200 = 0
  · rw [run_strategy_bad_ema df i hlen he] at hsucc
    simp at hsucc
  by_cases hk : i.upper_kc = 0 ∨ i.lower_kc = 0
  · rw [run_strategy_bad_kc df i hlen he hk] at hsucc
    simp at hsucc
  rw [run_strategy_success df i hlen he hk]
  dsimp only
  set cp := current_price df with hcpdef
  set pm := price_momentum df with hpmdef
  set cls := closes df with hclsdef
  set d0 := decision_stage cp pm i with hd0
  set d1 := forecast_refinement cls cp i d0 with hd1
  refine ⟨?_, ?_, ?_⟩
  · intro hns
    rw [risk_reward_signal, forecast_refinement_signal] at hns
    obtain ⟨hsl0, htp0⟩ := decision_stage_nosig_levels cp pm i hns
    have h1 : d1 = d0 := forecast_refinement_nosig cls cp i d0 hns
    have h2 : risk_reward_adjustment cp d1 = d0 := by
      rw [h1]
      exact risk_reward_nosig cp d0 hns
    rw [h2, hsl0, htp0]
    exact ⟨rfl, rfl⟩
  · intro hb
    rw [risk_reward_signal, forecast_refinement_signal] at hb
    obtain ⟨s0, t0, hs0, ht0, hs0c, ht0c, hs0l, ht0u⟩ :=
      decision_stage_buy_levels cp pm i hcp.le hb
    obtain ⟨s1, t1, hs1, ht1, hss, hs1c, htt, ht1c⟩ :=
      forecast_refinement_buy_levels cls cp i d0 hcp.le hb s0 t0 hs0 ht0 hs0c ht0c hs0l ht0u
    have hsig1 : d1.signal = "BUY" := by
      rw [hd1, forecast_refinement_signal]
      exact hb
    have hrisk : s1 < cp := lt_of_le_of_lt hs1c (by nlinarith)
    have hrew : cp ≤ t1 := le_trans (by nlinarith) ht1c
    obtain ⟨t2, hsl2, htp2, htt2, hcp2, hinv, hexact⟩ :=
      risk_reward_buy cp d1 hsig1 s1 t1 hs1 ht1 hrisk hrew
    refine ⟨t2, s1, ?_, ?_, hrisk, ?_⟩
    · rw [htp2]; rfl
    · rw [hsl2]; rfl
    · linarith
  · intro hb
    rw [risk_reward_signal, forecast_refinement_signal] at hb
    obtain ⟨s0, t0, hs0, ht0, hs0c, ht0c, hs0u, ht0l⟩ :=
      decision_stage_sell_levels cp pm i hcp.le hb
    obtain ⟨s1, t1, hs1, ht1, hss, hs1c, htt, ht1c⟩ :=
      forecast_refinement_sell_levels cls cp i d0 hcp.le hb s0 t0 hs0 ht0 hs0c ht0c hs0u ht0l
    have hsig1 : d1.signal = "SELL" := by
      rw [hd1, forecast_refinement_signal]
      exact hb
    have hrisk : cp < s1 := lt_of_lt_of_le (by nlinarith) hs1c
    have hrew : t1 ≤ cp := le_trans ht1c (by nlinarith)
    obtain ⟨t2, hsl2, htp2, htt2, hcp2, hinv, hexact⟩ :=
      risk_reward_sell cp d1 hsig1 s1 t1 hs1 ht1 hrisk hrew
    refine ⟨t2, s1, ?_, ?_, hrisk, ?_⟩
    · rw [htp2]; rfl
    · rw [hsl2]; rfl
    · linarith

set_option maxRecDepth 40000 in
theorem c9_witness :
    (run_strategy (some dfFlat) iNoSig).1.tp = some 0 ∧
      (run_strategy (some dfFlat) iNoSig).1.sl = some 0 :=
  (c9_no_signal_sentinel dfFlat iNoSig (by with_unfolding_all decide)
    (by with_unfolding_all decide)).1 (by with_unfolding_all decide)

end AnalyzePair

namespace AnalyzePair

/-- C7: derived risk levels are only widened by the forecast refinement
and risk-reward stages; for a positively priced series whose decision
stage yields BUY the final stop-loss is at or below the derived one and
the final take-profit at or above the derived one, each on its side of
the current price, and the mirror holds for SELL. -/
theorem c7_levels_only_widen (df : List Candle) (i : IndicatorData)
    (hcp : 0 < current_price df)
    (hlen : ¬ df.length < CANDLE_LIMIT)
    (he : ¬(i.ema100 = 0 ∨ i.ema200 = 0)) (hk : ¬(i.upper_kc = 0 ∨ i.lower_kc = 0)) :
    ((decision_stage (current_price df) (price_momentum df) i).signal = "BUY" →
      ∃ s0 t0 s t,
        (decision_stage (current_price df) (price_momentum df) i).sl = some s0 ∧
        (decision_stage (current_price df) (price_momentum df) i).tp = some t0 ∧
        (run_strategy (some df) i).1.sl = some s ∧
        (run_strategy (some df) i).1.tp = some t ∧
        s ≤ s0 ∧ s0 < current_price df ∧ t0 ≤ t ∧ current_price df < t0) ∧
    ((decision_stage (current_price df) (price_momentum df) i).signal = "SELL" →
      ∃ s0 t0 s t,
        (decision_stage (current_price df) (price_momentum df) i).sl = some s0 ∧
        (decision_stage (current_price df) (price_momentum df) i).tp = some t0 ∧
        (run_strategy (some df) i).1.sl = some s ∧
        (run_strategy (some df) i).1.tp = some t ∧
        s0 ≤ s ∧ current_price df < s0 ∧ t ≤ t0 ∧ t0 < current_price df) := by
  rw [run_strategy_success df i hlen he hk]
  dsimp only
  set cp := current_price df with hcpdef
  set pm := price_momentum df with hpmdef
  set cls := closes df with hclsdef
  set d0 := decision_stage cp pm i with hd0
  set d1 := forecast_refinement cls cp i d0 with hd1
  constructor
  · intro hb
    obtain ⟨s0, t0, hs0, ht0, hs0c, ht0c, hs0l, ht0u⟩ :=
      decision_stage_buy_levels cp pm i hcp.le hb
    obtain ⟨s1, t1, hs1, ht1, hss, hs1c, htt, ht1c⟩ :=
      forecast_refinement_buy_levels cls cp i d0 hcp.le hb s0 t0 hs0 ht0 hs0c ht0c hs0l ht0u
    have hsig1 : d1.signal = "BUY" := by
      rw [hd1, forecast_refinement_signal]
      exact hb
    have hrisk : s1 < cp := lt_of_le_of_lt hs1c (by nlinarith)
    have hrew : cp ≤ t1 := le_trans (by nlinarith) ht1c
    obtain ⟨t2, hsl2, htp2, htt2, hcp2, hinv, hexact⟩ :=
      risk_reward_buy cp d1 hsig1 s1 t1 hs1 ht1 hrisk hrew
    refine ⟨s0, t0, s1, t2, hs0, ht0, ?_, ?_, hss, ?_, le_trans htt htt2, ?_⟩
    · rw [hsl2]; rfl
    · rw [htp2]; rfl
    · exact lt_of_le_of_lt hs0c (by nlinarith)
    · exact lt_of_lt_of_le (by nlinarith) ht0c
  · intro hb
    obtain ⟨s0, t0, hs0, ht0, hs0c, ht0c, hs0u, ht0l⟩ :=
      decision_stage_sell_levels cp pm i hcp.le hb
    obtain ⟨s1, t1, hs1, ht1, hss, hs1c, htt, ht1c⟩ :=
      forecast_refinement_sell_levels cls cp i d0 hcp.le hb s0 t0 hs0 ht0 hs0c ht0c hs0u ht0l
    have hsig1 : d1.signal = "SELL" := by
      rw [hd1, forecast_refinement_signal]
      exact hb
    have hrisk : cp < s1 := lt_of_lt_of_le (by nlinarith) hs1c
    have hrew : t1 ≤ cp := le_trans ht1c (by nlinarith)
    obtain ⟨t2, hsl2, htp2, htt2, hcp2, hinv, hexact⟩ :=
      risk_reward_sell cp d1 hsig1 s1 t1 hs1 ht1 hrisk hrew
    refine ⟨s0, t0, s1, t2, hs0, ht0, ?_, ?_, hss, ?_, le_trans htt2 htt, ?_⟩
    · rw [hsl2]; rfl
    · rw [htp2]; rfl
    · exact lt_of_lt_of_le (by nlinarith) hs0c
    · exact lt_of_le_of_lt ht0c (by nlinarith)

/-- C8: forecast_prices returns none for fewer than 10 closes and
otherwise exactly the requested number of rows, row k holding the point
forecast last close plus trend times k plus 1, with trend the difference
between the last close and the close 10 positions back divided by 10,
and the fixed 95 and 105 percent interval bounds at every step. -/
theorem c8_forecast_formula (cls : List ℚ) (periods : ℕ) :
    (forecast_prices cls periods =
      if cls.length < 10 then none
      else
        some ((List.range periods).map fun k =>
          { yhat := (cls[cls.length - 1]?).getD 0 +
              ((cls[cls.length - 1]?).getD 0 - (cls[cls.length - 10]?).getD 0) / 10 *
                ((k : ℚ) + 1),
            yhat_lower := ((cls[cls.length - 1]?).getD 0 +
              ((cls[cls.length - 1]?).getD 0 - (cls[cls.length - 10]?).getD 0) / 10 *
                ((k : ℚ) + 1)) * (95/100),
            yhat_upper := ((cls[cls.length - 1]?).getD 0 +
              ((cls[cls.length - 1]?).getD 0 - (cls[cls.length - 10]?).getD 0) / 10 *
                ((k : ℚ) + 1)) * (105/100) })) ∧
    ∀ rows, forecast_prices cls periods = some rows → rows.length = periods := by
  have hmain : forecast_prices cls periods =
      if cls.length < 10 then none
      else
        some ((List.range periods).map fun k =>
          { yhat := (cls[cls.length - 1]?).getD 0 +
              ((cls[cls.length - 1]?).getD 0 - (cls[cls.length - 10]?).getD 0) / 10 *
                ((k : ℚ) + 1),
            yhat_lower := ((cls[cls.length - 1]?).getD 0 +
              ((cls[cls.length - 1]?).getD 0 - (cls[cls.length - 10]?).getD 0) / 10 *
                ((k : ℚ) + 1)) * (95/100),
            yhat_upper := ((cls[cls.length - 1]?).getD 0 +
              ((cls[cls.length - 1]?).getD 0 - (cls[cls.length - 10]?).getD 0) / 10 *
                ((k : ℚ) + 1)) * (105/100) }) := by
    unfold forecast_prices ilocNeg
    by_cases h : cls.length < 10
    · rw [if_pos h, if_pos h]
    · rw [if_neg h, if_neg h]
      dsimp only
      have hlen10 : (cls.drop (cls.length - 10)).length = 10 := by
        rw [List.length_drop]
        omega
      have hlast : (cls.drop (cls.length - 10))[(cls.drop (cls.length - 10)).length - 1]? =
          cls[cls.length - 1]? := by
        rw [hlen10, List.getElem?_drop]
        congr 1
        omega
      have hfirst : (cls.drop (cls.length - 10))[0]? = cls[cls.length - 10]? := by
        rw [List.getElem?_drop]
        congr 1
      have hcast : (((cls.drop (cls.length - 10)).length : ℕ) : ℚ) = 10 := by
        rw [hlen10]
        norm_num
      rw [hlast, hfirst, hcast]
  refine ⟨hmain, ?_⟩
  intro rows hrows
  rw [hmain] at hrows
  by_cases h : cls.length < 10
  · rw [if_pos h] at hrows
    cases hrows
  · rw [if_neg h] at hrows
    have hinj := Option.some.inj hrows
    rw [← hinj, List.length_map, List.length_range]

/-- C10: the record run_strategy returns has no confidence key, so the
confidence field the CLI wrapper emits is always its default of 50,
whatever the series and whatever confidence the engine computed. -/
theorem c10_cli_confidence_constant (df? : Option (List Candle)) (i : IndicatorData) :
    cliConfidence (run_strategy df? i).1 = 50 := rfl

set_option maxRecDepth 40000 in
theorem c1_witness :
    ∃ t s, (run_strategy (some dfRise) iStrong).1.tp = some t ∧
      (run_strategy (some dfRise) iStrong).1.sl = some s ∧
      3/2 ≤ |t - current_price dfRise| / |s - current_price dfRise| ∧
      (|(forecast_refinement (closes dfRise) (current_price dfRise) iStrong
            (decision_stage (current_price dfRise) (price_momentum dfRise) iStrong)).tp.getD 0 -
          current_price dfRise| /
        |current_price dfRise -
          (forecast_refinement (closes dfRise) (current_price dfRise) iStrong
            (decision_stage (current_price dfRise) (price_momentum dfRise) iStrong)).sl.getD 0| <
          3/2 →
        |t - current_price dfRise| = 3/2 * |s - current_price dfRise|) :=
  c1_risk_reward_ratio dfRise iStrong (by with_unfolding_all decide)
    (Or.inl (by with_unfolding_all decide))

set_option maxRecDepth 40000 in
theorem c7_witness :
    ((decision_stage (current_price dfRise) (price_momentum dfRise) iStrong).signal = "BUY" →
      ∃ s0 t0 s t,
        (decision_stage (current_price dfRise) (price_momentum dfRise) iStrong).sl = some s0 ∧
        (decision_stage (current_price dfRise) (price_momentum dfRise) iStrong).tp = some t0 ∧
        (run_strategy (some dfRise) iStrong).1.sl = some s ∧
        (run_strategy (some dfRise) iStrong).1.tp = some t ∧
        s ≤ s0 ∧ s0 < current_price dfRise ∧ t0 ≤ t ∧ current_price dfRise < t0) ∧
    ((decision_stage (current_price dfRise) (price_momentum dfRise) iStrong).signal = "SELL" →
      ∃ s0 t0 s t,
        (decision_stage (current_price dfRise) (price_momentum dfRise) iStrong).sl = some s0 ∧
        (decision_stage (current_price dfRise) (price_momentum dfRise) iStrong).tp = some t0 ∧
        (run_strategy (some dfRise) iStrong).1.sl = some s ∧
        (run_strategy (some dfRise) iStrong).1.tp = some t ∧
        s0 ≤ s ∧ current_price dfRise < s0 ∧ t ≤ t0 ∧ t0 < current_price dfRise) :=
  c7_levels_only_widen dfRise iStrong (by with_unfolding_all decide)
    (by with_unfolding_all decide) (by with_unfolding_all decide)
    (by with_unfolding_all decide)

end AnalyzePair
